import Mathlib

/-!
# ttsTgBot: the session gate and the buffering stage of `tgBotApi.js`

A shallow embedding of the parts of `src/tgBotApi.js` that carry state or data:

* the `sessions` map and `useSession` (lines 32-45),
* `secondsToWait` (lines 47-49),
* the `bot.on("text")` handler (lines 51-83), cut at its `await`s,
* `convertToBuffer`, `prepareAudioForVoice`, `generateVoiceBuffer` (lines 91-99, 127-132).

Conventions.

* Times are the integer millisecond values returned by `Date.now()`. They are
  modelled as `Int`; every value the program computes from them
  (`now + 60 * 1000`, `to - now`) stays far below `2 ^ 53`, where JavaScript
  numbers are exact integers, and for such an integer `a` the double nearest to
  `a / 1000` has the same floor as the exact quotient.
* A session object is a JavaScript object of which only the two properties
  `isProcessing` and `timeoutTo` are ever written; a property that is not set is
  `none`. Object spread `{ ...a, ...b }` is `spread a b`.
* The Telegram client, the HTTP client and ffmpeg are outside the embedding: what
  they return is an argument of the function that awaits it.
-/

namespace TgBot

/-! ## Sessions (lines 25-45) -/

/-- Telegram chat identifiers (`chat.id`). -/
abbrev ChatId := Int

/-- A session object: `isProcessing: boolean`, `timeoutTo: number` (lines 27-30).
The same type serves for the partial objects passed to `setSession`. -/
structure Session where
  isProcessing : Option Bool := none
  timeoutTo : Option Int := none
deriving DecidableEq, Repr

/-- Object spread `{ ...a, ...b }`: the properties of `b` override those of `a`. -/
def spread (a b : Session) : Session where
  isProcessing := match b.isProcessing with
    | some v => some v
    | none => a.isProcessing
  timeoutTo := match b.timeoutTo with
    | some v => some v
    | none => a.timeoutTo

/-- Spreading the result of `Map.get`: `{ ...undefined }` contributes no property. -/
def spreadGet : Option Session → Session
  | some s => s
  | none => {}

/-- The module-level `sessions = new Map()` (line 32), keyed by `chat.id`. -/
abbrev SessionMap := ChatId → Option Session

/-- The value `new Map()`. -/
def SessionMap.empty : SessionMap := fun _ => none

/-- The method `Map.prototype.has`. -/
def SessionMap.has (sessions : SessionMap) (chatId : ChatId) : Bool :=
  (sessions chatId).isSome

/-- The method `Map.prototype.get` (`none` is `undefined`). -/
def SessionMap.get (sessions : SessionMap) (chatId : ChatId) : Option Session :=
  sessions chatId

/-- The method `Map.prototype.set`. -/
def SessionMap.set (sessions : SessionMap) (chatId : ChatId) (value : Session) : SessionMap :=
  fun k => if k = chatId then some value else sessions k

/-- The object literal of line 36. -/
def defaultSession : Session := { isProcessing := some false, timeoutTo := some 0 }

/-- The closure returned as second component by `useSession` (lines 40-43):
`newSession => sessions.set(chatId, { ...sessions.get(chatId), ...newSession })`.
It reads the map at the time it is called. -/
def setSession (chatId : ChatId) (sessions : SessionMap) (newSession : Session) : SessionMap :=
  sessions.set chatId (spread (spreadGet (sessions.get chatId)) newSession)

/-- The function `useSession` (lines 34-45): inserts the default session when the
chat is unknown, and returns the map together with a copy of the stored session
(`{ ...sessions.get(chatId) }`). The second component of the JavaScript result
is `setSession chatId`. -/
def useSession (sessions : SessionMap) (chatId : ChatId) : SessionMap × Session :=
  let sessions := if !sessions.has chatId then sessions.set chatId defaultSession else sessions
  (sessions, spreadGet (sessions.get chatId))

/-- The function `secondsToWait` (lines 47-49): `Math.floor((to - Date.now()) / 1000)`,
where `now` is the value `Date.now()` returns inside the call. Integer division
by the positive literal `1000` rounds towards minus infinity. -/
def secondsToWait (to_ now : Int) : Int :=
  Int.fdiv (to_ - now) 1000

/-! ## Buffers and streams (lines 91-99, 127-132) -/

/-- A Node `Buffer`: a sequence of bytes. -/
abbrev Buffer := List (Fin 256)

/-- The function `Buffer.alloc(size)`: `size` zero bytes. -/
def Buffer.alloc (size : Nat) : Buffer := List.replicate size 0

/-- The function `Buffer.concat(list)`. -/
def Buffer.concat (list : List Buffer) : Buffer := list.foldr (fun b acc => b ++ acc) []

/-- An error value thrown or emitted by a collaborator. -/
abbrev Error := String

/-- What an async iteration over a readable stream observes: the chunks in
emission order, then either the end of the stream (`error = none`) or an
error (`error = some e`), which makes `for await` throw. -/
structure ByteStream where
  chunks : List Buffer
  error : Option Error := none
deriving DecidableEq, Repr

/-- The function `convertToBuffer` (lines 127-132). The loop body
`buffer = Buffer.concat([buffer, chunk])` runs once per chunk, starting from
`Buffer.alloc(0)`; an error of the stream is rethrown. -/
def convertToBuffer (stream : ByteStream) : Except Error Buffer :=
  let buffer := stream.chunks.foldl (fun buffer chunk => Buffer.concat [buffer, chunk]) (Buffer.alloc 0)
  match stream.error with
  | none => .ok buffer
  | some e => .error e

/-- The function `prepareAudioForVoice` (lines 96-99). `oggStream` is what
`convertToOggStream` (ffmpeg) returns for the given input. -/
def prepareAudioForVoice (oggStream : ByteStream) : Except Error Buffer :=
  convertToBuffer oggStream

/-- The function `generateVoiceBuffer` (lines 91-94). `fetched` is the outcome of
`getVoiceAudioStream(text)` (the `got.post` call), `toOgg` the transcoder. -/
def generateVoiceBuffer (fetched : Except Error Buffer) (toOgg : Buffer → ByteStream) :
    Except Error Buffer :=
  match fetched with
  | .error e => .error e
  | .ok voiceStream => prepareAudioForVoice (toOgg voiceStream)

/-! ## The text handler (lines 51-83) -/

/-- The five texts the handler passes to `bot.sendMessage`. -/
inductive Reply where
  | welcome
  | busy
  | cooldown (seconds : Int)
  | generating
  | failure
deriving DecidableEq, Repr

/-- The string of each reply (lines 59, 65, 70, 74, 81). -/
def Reply.text : Reply → String
  | .welcome => "Hello, I am GLaDOS. If you want to hear me, just send me text (only English)"
  | .busy => "Please wait while the previous voice is being generated"
  | .cooldown seconds => "Please wait for " ++ toString seconds ++ " seconds"
  | .generating => "Generating voice..."
  | .failure => "Ooops, something went wrong. Try again"

/-- A call on the Telegram client made by the handler. -/
inductive Action where
  | sendMessage (chatId : ChatId) (reply : Reply)
  | sendVoice (chatId : ChatId) (voice : Buffer)
deriving DecidableEq, Repr

/-- The fields of the incoming message the handler uses (line 52). -/
structure Msg where
  text : String
  chat : ChatId
deriving DecidableEq, Repr

/-- Where an invocation of the handler stands when it first gives control back. -/
inductive Suspended where
  /-- It returned (lines 63 and 68). -/
  | done
  /-- It awaits `prepareAudioForVoice("./start.wav")` (line 58). -/
  | greeting (chat : ChatId)
  /-- It awaits `generateVoiceBuffer(text)` (line 76). -/
  | generating (chat : ChatId) (text : String)
deriving DecidableEq, Repr

/-- The test `/^\/start$/.test(text)` (line 57): without the `m` flag the
pattern matches the string `/start` and nothing else. -/
def isStart (text : String) : Bool := text == "/start"

/-- The comparison `timeoutTo > Date.now()` (line 67); `undefined > n` is false. -/
def timeoutAfter (timeoutTo : Option Int) (now : Int) : Bool :=
  match timeoutTo with
  | some t => decide (t > now)
  | none => false

/-- The handler from line 52 up to its first `await` (lines 52-76), which runs
without interruption. `now` is the value of `Date.now()` on line 67 and `now'`
the value of the later `Date.now()` inside `secondsToWait` (line 48). -/
def onText (sessions : SessionMap) (msg : Msg) (now now' : Int) :
    SessionMap × List Action × Suspended :=
  let (sessions, session) := useSession sessions msg.chat
  if isStart msg.text then
    (sessions, [], .greeting msg.chat)
  else if session.isProcessing = some true then
    (sessions, [.sendMessage msg.chat .busy], .done)
  else if timeoutAfter session.timeoutTo now then
    (sessions, [.sendMessage msg.chat (.cooldown (secondsToWait (session.timeoutTo.getD 0) now'))],
      .done)
  else
    (setSession msg.chat sessions { isProcessing := some true },
      [.sendMessage msg.chat .generating], .generating msg.chat msg.text)

/-- The rest of the `/start` branch (lines 58-59): `clip` is the outcome of
`prepareAudioForVoice("./start.wav")`, `delivered` tells whether the awaited
`bot.sendVoice` resolved. A rejection ends the handler. -/
def onGreeting (chat : ChatId) (clip : Except Error Buffer) (delivered : Bool) : List Action :=
  match clip with
  | .error _ => []
  | .ok voice =>
    if delivered then [.sendVoice chat voice, .sendMessage chat .welcome]
    else [.sendVoice chat voice]

/-- The handler after `await generateVoiceBuffer(text)` settles (lines 76-82):
`result` is the outcome of the awaited promise, `now` the value of `Date.now()`
on line 77, `sessions` the map at that moment. -/
def onGenerated (sessions : SessionMap) (chat : ChatId) (result : Except Error Buffer)
    (now : Int) : SessionMap × List Action :=
  match result with
  | .ok voice =>
    (setSession chat sessions { isProcessing := some false, timeoutTo := some (now + 60 * 1000) },
      [.sendVoice chat voice])
  | .error _ =>
    (setSession chat sessions { isProcessing := some false },
      [.sendMessage chat .failure])

/-! ## The event loop -/

/-- The session map together with the handler invocations suspended on line 76,
one entry (the chat of the invocation) per generation pipeline in flight. -/
structure BotState where
  sessions : SessionMap
  pending : List ChatId

/-- The state at start-up: an empty map, nothing in flight. -/
def BotState.init : BotState := { sessions := SessionMap.empty, pending := [] }

/-- What the event loop can run next. -/
inductive Event where
  /-- A text message arrives; `now`, `now'` are the clock readings of `onText`. -/
  | text (msg : Msg) (now now' : Int)
  /-- The pipeline awaited by a suspended invocation for `chat` settles. -/
  | settled (chat : ChatId) (result : Except Error Buffer) (now : Int)

/-- One turn of the event loop. A `settled` event needs a suspended invocation
for its chat. -/
def step (s : BotState) : Event → Option (BotState × List Action)
  | .text msg now now' =>
    match onText s.sessions msg now now' with
    | (sessions, actions, .generating chat _) =>
      some ({ sessions := sessions, pending := chat :: s.pending }, actions)
    | (sessions, actions, _) =>
      some ({ sessions := sessions, pending := s.pending }, actions)
  | .settled chat result now =>
    if chat ∈ s.pending then
      match onGenerated s.sessions chat result now with
      | (sessions, actions) =>
        some ({ sessions := sessions, pending := s.pending.erase chat }, actions)
    else none

/-- Runs a list of events, collecting the actions. -/
def run (s : BotState) : List Event → Option (BotState × List Action)
  | [] => some (s, [])
  | e :: es =>
    match step s e with
    | none => none
    | some (s1, acts) =>
      match run s1 es with
      | none => none
      | some (s2, acts2) => some (s2, acts ++ acts2)

/-- The states the bot can be in after start-up. -/
def Reachable (s : BotState) : Prop :=
  ∃ es acts, run BotState.init es = some (s, acts)

/-- Number of generation pipelines in flight for a chat. -/
def inFlight (s : BotState) (chat : ChatId) : Nat := s.pending.count chat

/-- The stored session of `chat` has `isProcessing == true`. -/
def isBusy (sessions : SessionMap) (chat : ChatId) : Bool :=
  match sessions.get chat with
  | some session => session.isProcessing == some true
  | none => false

/-- Number of `bot.sendMessage` calls to `chat` among the actions. -/
def textReplies (chat : ChatId) (actions : List Action) : Nat :=
  (actions.filter fun a => match a with
    | .sendMessage c _ => c == chat
    | .sendVoice _ _ => false).length

/-- Number of `bot.sendVoice` calls among the actions. -/
def voiceMessages (actions : List Action) : Nat :=
  (actions.filter fun a => match a with
    | .sendMessage _ _ => false
    | .sendVoice _ _ => true).length

/-- The event is the settling of a pipeline of `chat`. -/
def settles (chat : ChatId) : Event → Bool
  | .settled c _ _ => c == chat
  | .text _ _ _ => false

/-- The state after a `text` event: the map `onText` leaves, and one more
suspended invocation when `onText` started a pipeline. -/
def afterText (s : BotState) (msg : Msg) (now now' : Int) : BotState where
  sessions := (onText s.sessions msg now now').1
  pending := match (onText s.sessions msg now now').2.2 with
    | .generating chat _ => chat :: s.pending
    | _ => s.pending

/-- The single-flight property of a state: per chat at most one pipeline in
flight, and one exactly when the stored session is busy. -/
def SingleFlight (s : BotState) : Prop :=
  ∀ chat : ChatId, inFlight s chat ≤ 1 ∧ (inFlight s chat = 1 ↔ isBusy s.sessions chat = true)

/-! ## Facts about the session map -/

theorem SessionMap.get_set (sessions : SessionMap) (chatId k : ChatId) (value : Session) :
    (sessions.set chatId value).get k = if k = chatId then some value else sessions.get k := rfl

theorem SessionMap.get_set_self (sessions : SessionMap) (chatId : ChatId) (value : Session) :
    (sessions.set chatId value).get chatId = some value := by
  simp [SessionMap.get_set]

theorem SessionMap.get_set_other (sessions : SessionMap) (chatId k : ChatId) (value : Session)
    (h : k ≠ chatId) : (sessions.set chatId value).get k = sessions.get k := by
  simp [SessionMap.get_set, h]

theorem setSession_get_self (sessions : SessionMap) (chatId : ChatId) (newSession : Session) :
    (setSession chatId sessions newSession).get chatId
      = some (spread (spreadGet (sessions.get chatId)) newSession) := by
  simp [setSession, SessionMap.get_set_self]

theorem setSession_get_other (sessions : SessionMap) (chatId k : ChatId) (newSession : Session)
    (h : k ≠ chatId) : (setSession chatId sessions newSession).get k = sessions.get k := by
  simp [setSession, SessionMap.get_set_other _ _ _ _ h]

theorem useSession_of_get_some (sessions : SessionMap) (chatId : ChatId) (session : Session)
    (h : sessions.get chatId = some session) : useSession sessions chatId = (sessions, session) := by
  have hhas : sessions.has chatId = true := by
    simp only [SessionMap.get] at h
    simp [SessionMap.has, h]
  simp [useSession, hhas, h, spreadGet]

theorem useSession_of_get_none (sessions : SessionMap) (chatId : ChatId)
    (h : sessions.get chatId = none) :
    useSession sessions chatId = (sessions.set chatId defaultSession, defaultSession) := by
  have hhas : sessions.has chatId = false := by
    simp only [SessionMap.get] at h
    simp [SessionMap.has, h]
  simp [useSession, hhas, SessionMap.get_set_self, spreadGet]

theorem useSession_get_other (sessions : SessionMap) (chatId k : ChatId) (h : k ≠ chatId) :
    (useSession sessions chatId).1.get k = sessions.get k := by
  cases hget : sessions.get chatId with
  | none => rw [useSession_of_get_none _ _ hget]; exact SessionMap.get_set_other _ _ _ _ h
  | some session => rw [useSession_of_get_some _ _ _ hget]

theorem secondsToWait_eq_floor (to_ now : Int) :
    secondsToWait to_ now = ⌊((to_ - now : Int) : ℚ) / 1000⌋ := by
  have h := Rat.floor_intCast_div_natCast (to_ - now) 1000
  rw [secondsToWait, Int.fdiv_eq_ediv _ (by norm_num : (0 : Int) ≤ 1000)]
  simpa using h.symm

/-! ## Facts about buffering -/

theorem Buffer.concat_pair (a b : Buffer) : Buffer.concat [a, b] = a ++ b := by
  simp [Buffer.concat]

theorem convertToBuffer_loop (chunks : List Buffer) (buffer : Buffer) :
    chunks.foldl (fun buffer chunk => Buffer.concat [buffer, chunk]) buffer
      = buffer ++ chunks.flatten := by
  induction chunks generalizing buffer with
  | nil => simp
  | cons c rest ih =>
    rw [List.foldl_cons, ih, Buffer.concat_pair, List.flatten_cons, List.append_assoc]

theorem convertToBuffer_ok (chunks : List Buffer) :
    convertToBuffer { chunks := chunks } = .ok chunks.flatten := by
  simp [convertToBuffer, convertToBuffer_loop, Buffer.alloc]

/-! ## Buffering (claim C10) -/

/-- Claim C10: for every finite sequence of chunks emitted without error,
`convertToBuffer` returns their concatenation in emission order; its length is
the sum of the chunk lengths; and any other chunking of the same bytes, in
particular the single chunk holding all of them, gives the same buffer. -/
theorem convertToBuffer_exact_concatenation (chunks rechunked : List Buffer)
    (hsame : rechunked.flatten = chunks.flatten) :
    convertToBuffer { chunks := chunks } = .ok chunks.flatten ∧
    chunks.flatten.length = (chunks.map List.length).sum ∧
    convertToBuffer { chunks := rechunked } = convertToBuffer { chunks := chunks } ∧
    convertToBuffer { chunks := [chunks.flatten] } = convertToBuffer { chunks := chunks } := by
  refine ⟨convertToBuffer_ok chunks, List.length_flatten chunks, ?_, ?_⟩
  · rw [convertToBuffer_ok, convertToBuffer_ok, hsame]
  · rw [convertToBuffer_ok, convertToBuffer_ok]; simp

/-- Claim C10 at three chunks, one of them empty, re-chunked in two. -/
theorem convertToBuffer_exact_concatenation_witness :
    convertToBuffer { chunks := [[1, 2], [], [3]] } = .ok [1, 2, 3] ∧
    convertToBuffer { chunks := [[1], [2, 3]] } = convertToBuffer { chunks := [[1, 2], [], [3]] } ∧
    convertToBuffer { chunks := [] } = .ok [] :=
  ⟨(convertToBuffer_exact_concatenation [[1, 2], [], [3]] [[1], [2, 3]] (by decide)).1,
   (convertToBuffer_exact_concatenation [[1, 2], [], [3]] [[1], [2, 3]] (by decide)).2.2.1,
   (convertToBuffer_exact_concatenation [] [] rfl).1⟩

/-! ## The rate gate (claims C2 to C7) -/

/-- Claim C2 on the code: an idle session with `timeoutTo = 1500` is refused at
clock `1000`, with 500 ms of cooldown left, and the reply reports `0` seconds
where the ceiling of `500 / 1000` is `1`; at clock `0` it reports `1` second
where the ceiling of `1500 / 1000` is `2`; and when the clock passes `timeoutTo`
between the test of line 67 (`1499`) and the read of line 48 (`1501`) it
reports `-1` seconds. The session is left as it was in each case. -/
theorem cooldown_reply_understates_wait :
    (onText (SessionMap.empty.set 7 { isProcessing := some false, timeoutTo := some 1500 })
        ⟨"hello", 7⟩ 1000 1000).2 = ([.sendMessage 7 (.cooldown 0)], .done) ∧
    ⌈((1500 - 1000 : Int) : ℚ) / 1000⌉ = 1 ∧
    (Reply.cooldown 0).text = "Please wait for 0 seconds" ∧
    (onText (SessionMap.empty.set 7 { isProcessing := some false, timeoutTo := some 1500 })
        ⟨"hello", 7⟩ 0 0).2 = ([.sendMessage 7 (.cooldown 1)], .done) ∧
    ⌈((1500 - 0 : Int) : ℚ) / 1000⌉ = 2 ∧
    (onText (SessionMap.empty.set 7 { isProcessing := some false, timeoutTo := some 1500 })
        ⟨"hello", 7⟩ 1499 1501).2 = ([.sendMessage 7 (.cooldown (-1))], .done) ∧
    (onText (SessionMap.empty.set 7 { isProcessing := some false, timeoutTo := some 1500 })
        ⟨"hello", 7⟩ 1000 1000).1.get 7
      = some { isProcessing := some false, timeoutTo := some 1500 } := by
  refine ⟨by decide, ?_, by decide, by decide, ?_, by decide, by decide⟩
  · rw [Int.ceil_eq_iff]; norm_num
  · rw [Int.ceil_eq_iff]; norm_num

/-- Claim C3: when the stored session has `isProcessing == true`, whatever
`timeoutTo` and the clock are, a text other than `/start` gets the busy reply
and only that, the handler returns without starting a pipeline, and the session
map is unchanged. -/
theorem busy_takes_priority (sessions : SessionMap) (chat : ChatId) (text : String)
    (session : Session) (now now' : Int) (htext : isStart text = false)
    (hget : sessions.get chat = some session) (hbusy : session.isProcessing = some true) :
    onText sessions ⟨text, chat⟩ now now' = (sessions, [.sendMessage chat .busy], .done) := by
  simp [onText, useSession_of_get_some _ _ _ hget, htext, hbusy]

/-- Claim C3 at a busy session whose cooldown has not expired. -/
theorem busy_takes_priority_witness :
    onText (SessionMap.empty.set 7 { isProcessing := some true, timeoutTo := some 90000 })
        ⟨"hello", 7⟩ 1000 1000
      = (SessionMap.empty.set 7 { isProcessing := some true, timeoutTo := some 90000 },
          [.sendMessage 7 .busy], .done) :=
  busy_takes_priority _ 7 "hello" { isProcessing := some true, timeoutTo := some 90000 }
    1000 1000 (by decide) (by decide) rfl

/-- Claim C4: the success path, run with clock reading `now` on any session
map, leaves the chat with `isProcessing == false` and `timeoutTo == now + 60000`;
with `now = 100000` that is `160000`, and a text other than `/start` handled at
clock `130000` then gets the cooldown reply with `30` seconds. -/
theorem succeed_postcondition (sessions : SessionMap) (chat : ChatId) (voice : Buffer)
    (now : Int) (text : String) :
    (onGenerated sessions chat (.ok voice) now).1.get chat
      = some { isProcessing := some false, timeoutTo := some (now + 60000) } ∧
    (onGenerated sessions chat (.ok voice) 100000).1.get chat
      = some { isProcessing := some false, timeoutTo := some 160000 } ∧
    (isStart text = false →
      (onText (onGenerated sessions chat (.ok voice) 100000).1 ⟨text, chat⟩ 130000 130000).2
        = ([.sendMessage chat (.cooldown 30)], .done)) := by
  have key : ∀ t : Int, (onGenerated sessions chat (.ok voice) t).1.get chat
      = some { isProcessing := some false, timeoutTo := some (t + 60000) } := by
    intro t
    simp [onGenerated, setSession_get_self, spread]
  refine ⟨key now, key 100000, fun htext => ?_⟩
  have hget := key 100000
  simp [onText, useSession_of_get_some _ _ _ hget, htext, timeoutAfter, secondsToWait]

/-- Claim C4 on a chat that was busy: the scenario values. -/
theorem succeed_postcondition_witness :
    (onGenerated (SessionMap.empty.set 7 { isProcessing := some true, timeoutTo := some 0 })
        7 (.ok [1]) 100000).1.get 7
      = some { isProcessing := some false, timeoutTo := some 160000 } ∧
    (onText (onGenerated (SessionMap.empty.set 7 { isProcessing := some true, timeoutTo := some 0 })
        7 (.ok [1]) 100000).1 ⟨"hello", 7⟩ 130000 130000).2
      = ([.sendMessage 7 (.cooldown 30)], .done) :=
  ⟨(succeed_postcondition _ 7 [1] 100000 "hello").2.1,
   (succeed_postcondition _ 7 [1] 100000 "hello").2.2 (by decide)⟩

/-- Claim C5: the failure path leaves the chat with `isProcessing == false` and
the `timeoutTo` it had, and leaves the session of every other chat as it was. -/
theorem fail_frame (sessions : SessionMap) (chat : ChatId) (session : Session) (e : Error)
    (now : Int) (hget : sessions.get chat = some session) :
    (onGenerated sessions chat (.error e) now).1.get chat
      = some { isProcessing := some false, timeoutTo := session.timeoutTo } ∧
    ∀ other : ChatId, other ≠ chat →
      (onGenerated sessions chat (.error e) now).1.get other = sessions.get other := by
  constructor
  · simp [onGenerated, setSession_get_self, spread, hget, spreadGet]
  · intro other hne
    simp [onGenerated, setSession_get_other _ _ _ _ hne]

/-- Claim C5 at a busy chat with a running cooldown, next to an idle chat. -/
theorem fail_frame_witness :
    (onGenerated
        ((SessionMap.empty.set 7 { isProcessing := some true, timeoutTo := some 90000 }).set 8
          { isProcessing := some true, timeoutTo := some 5 })
        7 (.error "network") 1000).1.get 7
      = some { isProcessing := some false, timeoutTo := some 90000 } ∧
    (onGenerated
        ((SessionMap.empty.set 7 { isProcessing := some true, timeoutTo := some 90000 }).set 8
          { isProcessing := some true, timeoutTo := some 5 })
        7 (.error "network") 1000).1.get 8
      = some { isProcessing := some true, timeoutTo := some 5 } :=
  ⟨(fail_frame _ 7 { isProcessing := some true, timeoutTo := some 90000 } "network" 1000
      (by decide)).1,
   ((fail_frame _ 7 { isProcessing := some true, timeoutTo := some 90000 } "network" 1000
      (by decide)).2 8 (by decide)).trans (by decide)⟩

/-- Claim C6: for a chat that is unknown to the map (so that its session is the
default one, `timeoutTo = 0`) or whose session is idle with `timeoutTo <= now`,
a text other than `/start` at `now >= 0` gets no rejection: the handler sends
the acknowledgement, suspends on the pipeline, and has stored
`isProcessing == true` with `timeoutTo` as it was before. -/
theorem allow_and_begin (sessions : SessionMap) (chat : ChatId) (text : String)
    (now now' cooldownUntil : Int) (htext : isStart text = false) (hnow : 0 ≤ now)
    (hsession : (sessions.get chat = none ∧ cooldownUntil = 0) ∨
      (sessions.get chat = some { isProcessing := some false, timeoutTo := some cooldownUntil }
        ∧ cooldownUntil ≤ now)) :
    (onText sessions ⟨text, chat⟩ now now').2
      = ([.sendMessage chat .generating], .generating chat text) ∧
    (onText sessions ⟨text, chat⟩ now now').1.get chat
      = some { isProcessing := some true, timeoutTo := some cooldownUntil } := by
  rcases hsession with ⟨hnone, rfl⟩ | ⟨hsome, hle⟩
  · have hnot : ¬ (0 : Int) > now := by omega
    simp [onText, useSession_of_get_none _ _ hnone, htext, defaultSession, timeoutAfter, hnot,
      setSession_get_self, SessionMap.get_set_self, spread, spreadGet]
  · have hnot : ¬ cooldownUntil > now := by omega
    simp [onText, useSession_of_get_some _ _ _ hsome, htext, timeoutAfter, hnot,
      setSession_get_self, spread, spreadGet, hsome]

/-- Claim C6 at a chat never seen before, text `hello`, clock `0`. -/
theorem allow_and_begin_witness :
    (onText SessionMap.empty ⟨"hello", 7⟩ 0 0).2
      = ([.sendMessage 7 .generating], .generating 7 "hello") ∧
    (onText SessionMap.empty ⟨"hello", 7⟩ 0 0).1.get 7
      = some { isProcessing := some true, timeoutTo := some 0 } :=
  allow_and_begin SessionMap.empty 7 "hello" 0 0 0 (by decide) (by decide)
    (Or.inl ⟨rfl, rfl⟩)

/-- Claim C7: for the text `/start`, whatever the session of the chat and the
clock, the handler sends no rejection and suspends on the greeting clip; when
the clip is buffered without error and its delivery resolves, the replies are
the clip then the welcome text; every session read afterwards is the one that
would have been read before, and a map that knew the chat is unchanged. -/
theorem greeting_bypasses_gate (sessions : SessionMap) (chat : ChatId) (now now' : Int)
    (ogg : ByteStream) (hogg : ogg.error = none) :
    (onText sessions ⟨"/start", chat⟩ now now').2 = ([], .greeting chat) ∧
    onGreeting chat (prepareAudioForVoice ogg) true
      = [.sendVoice chat ogg.chunks.flatten, .sendMessage chat .welcome] ∧
    (∀ c : ChatId, (useSession (onText sessions ⟨"/start", chat⟩ now now').1 c).2
      = (useSession sessions c).2) ∧
    (sessions.has chat = true → (onText sessions ⟨"/start", chat⟩ now now').1 = sessions) := by
  have hstart : isStart "/start" = true := by decide
  have hfst : (onText sessions ⟨"/start", chat⟩ now now').1 = (useSession sessions chat).1 := by
    simp [onText, hstart]
  refine ⟨by simp [onText, hstart], ?_, ?_, ?_⟩
  · obtain ⟨chunks, error⟩ := ogg
    simp only at hogg
    subst hogg
    simp [prepareAudioForVoice, convertToBuffer_ok, onGreeting]
  · intro c
    rw [hfst]
    cases hget : sessions.get chat with
    | some session => rw [useSession_of_get_some _ _ _ hget]
    | none =>
      rw [useSession_of_get_none _ _ hget]
      by_cases hc : c = chat
      · subst hc
        rw [useSession_of_get_none _ _ hget,
          useSession_of_get_some _ _ _ (SessionMap.get_set_self _ _ _)]
      · have hother := SessionMap.get_set_other sessions chat c defaultSession hc
        cases hgc : sessions.get c with
        | some sc =>
          rw [useSession_of_get_some _ _ _ hgc, useSession_of_get_some _ _ _ (hother.trans hgc)]
        | none =>
          rw [useSession_of_get_none _ _ hgc, useSession_of_get_none _ _ (hother.trans hgc)]
  · intro hhas
    rw [hfst]
    cases hget : sessions.get chat with
    | some session => rw [useSession_of_get_some _ _ _ hget]
    | none =>
      simp only [SessionMap.get] at hget
      simp [SessionMap.has, hget] at hhas

/-- Claim C7 at a busy chat in cooldown: the greeting is sent all the same. -/
theorem greeting_bypasses_gate_witness :
    (onText (SessionMap.empty.set 7 { isProcessing := some true, timeoutTo := some 90000 })
        ⟨"/start", 7⟩ 1000 1000).2 = ([], .greeting 7) ∧
    onGreeting 7 (prepareAudioForVoice { chunks := [[1, 2], [3]] }) true
      = [.sendVoice 7 [1, 2, 3], .sendMessage 7 .welcome] ∧
    (onText (SessionMap.empty.set 7 { isProcessing := some true, timeoutTo := some 90000 })
        ⟨"/start", 7⟩ 1000 1000).1
      = SessionMap.empty.set 7 { isProcessing := some true, timeoutTo := some 90000 } :=
  ⟨(greeting_bypasses_gate _ 7 1000 1000 { chunks := [[1, 2], [3]] } rfl).1,
   (greeting_bypasses_gate (SessionMap.empty.set 7
      { isProcessing := some true, timeoutTo := some 90000 }) 7 1000 1000
      { chunks := [[1, 2], [3]] } rfl).2.1,
   (greeting_bypasses_gate _ 7 1000 1000 { chunks := [[1, 2], [3]] } rfl).2.2.2 (by decide)⟩

/-! ## Facts about the event loop -/

theorem isBusy_congr (m m' : SessionMap) (c : ChatId) (h : m'.get c = m.get c) :
    isBusy m' c = isBusy m c := by
  simp [isBusy, h]

theorem useSession_isBusy (m : SessionMap) (c k : ChatId) :
    isBusy (useSession m c).1 k = isBusy m k := by
  cases hget : m.get c with
  | some session => rw [useSession_of_get_some _ _ _ hget]
  | none =>
    rw [useSession_of_get_none _ _ hget]
    by_cases hk : k = c
    · subst hk
      simp [isBusy, SessionMap.get_set_self, hget, defaultSession]
    · exact isBusy_congr _ _ _ (SessionMap.get_set_other _ _ _ _ hk)

theorem useSession_snapshot_busy (m : SessionMap) (c : ChatId) :
    (useSession m c).2.isProcessing = some true ↔ isBusy m c = true := by
  cases hget : m.get c with
  | some session => simp [useSession_of_get_some _ _ _ hget, isBusy, hget]
  | none => simp [useSession_of_get_none _ _ hget, isBusy, hget, defaultSession]

theorem step_text (s : BotState) (msg : Msg) (now now' : Int) :
    step s (.text msg now now')
      = some (afterText s msg now now', (onText s.sessions msg now now').2.1) := by
  simp only [step, afterText]
  split <;> simp_all

theorem onText_shape (m : SessionMap) (msg : Msg) (now now' : Int) :
    ((onText m msg now now').1 = (useSession m msg.chat).1 ∧
      ((onText m msg now now').2.2 = .done ∨ (onText m msg now now').2.2 = .greeting msg.chat)) ∨
    ((useSession m msg.chat).2.isProcessing ≠ some true ∧ isStart msg.text = false ∧
      onText m msg now now'
        = (setSession msg.chat (useSession m msg.chat).1 { isProcessing := some true },
            [.sendMessage msg.chat .generating], .generating msg.chat msg.text)) := by
  simp only [onText]
  split_ifs with h1 h2 h3
  · exact Or.inl ⟨rfl, Or.inr rfl⟩
  · exact Or.inl ⟨rfl, Or.inl rfl⟩
  · exact Or.inl ⟨rfl, Or.inl rfl⟩
  · exact Or.inr ⟨h2, by simpa using h1, rfl⟩

theorem onText_get_other (m : SessionMap) (msg : Msg) (now now' : Int) (k : ChatId)
    (hk : k ≠ msg.chat) : (onText m msg now now').1.get k = m.get k := by
  rcases onText_shape m msg now now' with ⟨h, _⟩ | ⟨_, _, h⟩
  · rw [h]; exact useSession_get_other _ _ _ hk
  · rw [h]
    exact (setSession_get_other _ _ _ _ hk).trans (useSession_get_other _ _ _ hk)

theorem onGenerated_get_other (m : SessionMap) (chat k : ChatId) (result : Except Error Buffer)
    (now : Int) (hk : k ≠ chat) : (onGenerated m chat result now).1.get k = m.get k := by
  cases result <;> simp [onGenerated, setSession_get_other _ _ _ _ hk]

theorem onGenerated_not_busy (m : SessionMap) (chat : ChatId) (result : Except Error Buffer)
    (now : Int) : isBusy (onGenerated m chat result now).1 chat = false := by
  cases result <;> simp [onGenerated, isBusy, setSession_get_self, spread]

theorem step_singleFlight (s s1 : BotState) (e : Event) (acts : List Action)
    (hinv : SingleFlight s) (hstep : step s e = some (s1, acts)) : SingleFlight s1 := by
  intro k
  have hk := hinv k
  simp only [inFlight] at hk ⊢
  cases e with
  | text msg now now' =>
    rw [step_text] at hstep
    simp only [Option.some.injEq, Prod.mk.injEq] at hstep
    obtain ⟨rfl, -⟩ := hstep
    rcases onText_shape s.sessions msg now now' with ⟨hm, hs⟩ | ⟨hidle, -, hall⟩
    · have hpend : (afterText s msg now now').pending = s.pending := by
        rcases hs with hs | hs <;> simp [afterText, hs]
      have hbusy : isBusy (afterText s msg now now').sessions k = isBusy s.sessions k := by
        simp only [afterText, hm]; exact useSession_isBusy _ _ _
      rw [hpend, hbusy]; exact hk
    · have hpend : (afterText s msg now now').pending = msg.chat :: s.pending := by
        simp [afterText, hall]
      have hsess : (afterText s msg now now').sessions
          = setSession msg.chat (useSession s.sessions msg.chat).1 { isProcessing := some true } := by
        simp [afterText, hall]
      rw [hpend, hsess]
      by_cases hkc : k = msg.chat
      · subst hkc
        have hidle2 : ¬ isBusy s.sessions msg.chat = true := by
          rwa [← useSession_snapshot_busy]
        have hzero : s.pending.count msg.chat = 0 := by
          have h1 := hk.1
          have h2 := hk.2
          by_contra hne
          exact hidle2 (h2.mp (by omega))
        have hnow : isBusy (setSession msg.chat (useSession s.sessions msg.chat).1
            { isProcessing := some true }) msg.chat = true := by
          simp [isBusy, setSession_get_self, spread]
        simp [hzero, hnow]
      · have hbusy : isBusy (setSession msg.chat (useSession s.sessions msg.chat).1
            { isProcessing := some true }) k = isBusy s.sessions k := by
          rw [isBusy_congr _ _ _ (setSession_get_other _ _ _ _ hkc)]
          exact useSession_isBusy _ _ _
        rw [hbusy, List.count_cons_of_ne hkc]; exact hk
  | settled chat result now =>
    simp only [step] at hstep
    split_ifs at hstep with hmem
    simp only [Option.some.injEq, Prod.mk.injEq] at hstep
    obtain ⟨rfl, -⟩ := hstep
    simp only
    by_cases hkc : k = chat
    · subst hkc
      have hpos : 0 < s.pending.count k := List.count_pos_iff.mpr hmem
      have hone : s.pending.count k = 1 := by have := hk.1; omega
      rw [List.count_erase_self, hone, onGenerated_not_busy]
      simp
    · rw [List.count_erase_of_ne hkc,
        isBusy_congr _ _ _ (onGenerated_get_other _ _ _ result now hkc)]
      exact hk

theorem run_singleFlight (es : List Event) (s s1 : BotState) (acts : List Action)
    (hinv : SingleFlight s) (hrun : run s es = some (s1, acts)) : SingleFlight s1 := by
  induction es generalizing s acts with
  | nil =>
    simp only [run, Option.some.injEq, Prod.mk.injEq] at hrun
    obtain ⟨rfl, -⟩ := hrun
    exact hinv
  | cons e es ih =>
    simp only [run] at hrun
    cases hstep : step s e with
    | none => simp [hstep] at hrun
    | some r =>
      obtain ⟨s2, a2⟩ := r
      simp only [hstep] at hrun
      cases hrest : run s2 es with
      | none => simp [hrest] at hrun
      | some r2 =>
        obtain ⟨s3, a3⟩ := r2
        simp only [hrest, Option.some.injEq, Prod.mk.injEq] at hrun
        obtain ⟨rfl, -⟩ := hrun
        exact ih s2 a3 (step_singleFlight s s2 e a2 hinv hstep) hrest

theorem init_singleFlight : SingleFlight BotState.init := by
  intro k
  simp [inFlight, BotState.init, isBusy, SessionMap.get, SessionMap.empty]

theorem useSession_get_self (m : SessionMap) (c : ChatId) :
    (useSession m c).1.get c = some (useSession m c).2 := by
  cases hget : m.get c with
  | some session => rw [useSession_of_get_some _ _ _ hget]; exact hget
  | none => rw [useSession_of_get_none _ _ hget]; exact SessionMap.get_set_self _ _ _

theorem isBusy_get (m : SessionMap) (c : ChatId) (h : isBusy m c = true) :
    ∃ session, m.get c = some session ∧ session.isProcessing = some true := by
  cases hget : m.get c with
  | none => simp [isBusy, hget] at h
  | some session => exact ⟨session, rfl, by simpa [isBusy, hget] using h⟩

theorem step_keeps_busy (s s1 : BotState) (e : Event) (acts : List Action) (c : ChatId)
    (hbusy : isBusy s.sessions c = true) (he : settles c e = false)
    (hstep : step s e = some (s1, acts)) :
    s1.sessions.get c = s.sessions.get c ∧ (c ∈ s.pending → c ∈ s1.pending) := by
  cases e with
  | text msg now now' =>
    rw [step_text] at hstep
    simp only [Option.some.injEq, Prod.mk.injEq] at hstep
    obtain ⟨rfl, -⟩ := hstep
    constructor
    · by_cases hc : c = msg.chat
      · subst hc
        obtain ⟨session, hget, -⟩ := isBusy_get _ _ hbusy
        rcases onText_shape s.sessions msg now now' with ⟨hm, -⟩ | ⟨hidle, -, -⟩
        · simp only [afterText, hm, useSession_of_get_some _ _ _ hget]
        · exact absurd ((useSession_snapshot_busy _ _).mpr hbusy) hidle
      · exact onText_get_other _ _ _ _ _ hc
    · intro hmem
      rcases onText_shape s.sessions msg now now' with ⟨-, hs⟩ | ⟨-, -, hall⟩
      · rcases hs with hs | hs <;> simpa [afterText, hs] using hmem
      · simp [afterText, hall, hmem]
  | settled chat result now =>
    have hne : c ≠ chat := by
      intro h
      simp [settles, h] at he
    simp only [step] at hstep
    split_ifs at hstep with hmem
    simp only [Option.some.injEq, Prod.mk.injEq] at hstep
    obtain ⟨rfl, -⟩ := hstep
    exact ⟨onGenerated_get_other _ _ _ _ _ hne, fun h => (List.mem_erase_of_ne hne).mpr h⟩

theorem run_keeps_busy (es : List Event) (s s1 : BotState) (acts : List Action) (c : ChatId)
    (hbusy : isBusy s.sessions c = true) (hes : ∀ ev ∈ es, settles c ev = false)
    (hrun : run s es = some (s1, acts)) :
    s1.sessions.get c = s.sessions.get c ∧ (c ∈ s.pending → c ∈ s1.pending) := by
  induction es generalizing s acts with
  | nil =>
    simp only [run, Option.some.injEq, Prod.mk.injEq] at hrun
    obtain ⟨rfl, -⟩ := hrun
    exact ⟨rfl, id⟩
  | cons e es ih =>
    simp only [run] at hrun
    cases hstep : step s e with
    | none => simp [hstep] at hrun
    | some r =>
      obtain ⟨s2, a2⟩ := r
      simp only [hstep] at hrun
      cases hrest : run s2 es with
      | none => simp [hrest] at hrun
      | some r2 =>
        obtain ⟨s3, a3⟩ := r2
        simp only [hrest, Option.some.injEq, Prod.mk.injEq] at hrun
        obtain ⟨rfl, -⟩ := hrun
        have h1 := step_keeps_busy s s2 e a2 c hbusy (hes e (List.mem_cons_self _ _)) hstep
        have hbusy2 : isBusy s2.sessions c = true := by
          rw [isBusy_congr _ _ _ h1.1]; exact hbusy
        have h2 := ih s2 a3 hbusy2 (fun ev hev => hes ev (List.mem_cons_of_mem _ hev)) hrest
        exact ⟨h2.1.trans h1.1, fun h => h2.2 (h1.2 h)⟩

/-- An allowed message leaves its chat busy and pending until its own pipeline
settles, whatever else the event loop runs in between. -/
theorem allowed_until_settled (s s1 s2 : BotState) (msg : Msg) (now now' : Int)
    (acts1 mid : List Action) (es : List Event)
    (hallow : (onText s.sessions msg now now').2.2 = .generating msg.chat msg.text)
    (hstep : step s (.text msg now now') = some (s1, acts1))
    (hes : ∀ ev ∈ es, settles msg.chat ev = false)
    (hrun : run s1 es = some (s2, mid)) :
    acts1 = [.sendMessage msg.chat .generating] ∧ msg.chat ∈ s2.pending ∧
    s2.sessions.get msg.chat
      = some { isProcessing := some true,
               timeoutTo := (useSession s.sessions msg.chat).2.timeoutTo } := by
  rw [step_text] at hstep
  simp only [Option.some.injEq, Prod.mk.injEq] at hstep
  obtain ⟨rfl, rfl⟩ := hstep
  rcases onText_shape s.sessions msg now now' with ⟨-, hs⟩ | ⟨-, -, hall⟩
  · rcases hs with hs | hs <;> simp [hs] at hallow
  · have hget1 : (afterText s msg now now').sessions.get msg.chat
        = some { isProcessing := some true,
                 timeoutTo := (useSession s.sessions msg.chat).2.timeoutTo } := by
      simp [afterText, hall, setSession_get_self, useSession_get_self, spreadGet, spread]
    have hbusy1 : isBusy (afterText s msg now now').sessions msg.chat = true := by
      simp [isBusy, hget1]
    have hmem1 : msg.chat ∈ (afterText s msg now now').pending := by
      simp [afterText, hall]
    have h := run_keeps_busy es _ s2 mid msg.chat hbusy1 hes hrun
    exact ⟨by simp [hall], h.2 hmem1, h.1.trans hget1⟩

/-! ## The single-flight invariant (claim C1) -/

/-- Claim C1: in every state reachable from the empty session map by `text` and
`settled` steps, each chat has at most one generation pipeline in flight, and
has one exactly when its stored session has `isProcessing == true`. -/
theorem single_flight (s : BotState) (hs : Reachable s) (chat : ChatId) :
    inFlight s chat ≤ 1 ∧ (inFlight s chat = 1 ↔ isBusy s.sessions chat = true) := by
  obtain ⟨es, acts, hrun⟩ := hs
  exact run_singleFlight es BotState.init s acts init_singleFlight hrun chat

/-- A state reached by one allowed message: chat `7` sends `hello` at clock `0`. -/
theorem reachable_after_hello :
    Reachable (afterText BotState.init ⟨"hello", 7⟩ 0 0) :=
  ⟨[.text ⟨"hello", 7⟩ 0 0], [.sendMessage 7 .generating], by
    simp only [run, step_text]
    rfl⟩

/-- Claim C1 in the state after chat `7` sent `hello`: one pipeline in flight
for chat `7`, which is busy; none for chat `8`, which is not. -/
theorem single_flight_witness :
    (inFlight (afterText BotState.init ⟨"hello", 7⟩ 0 0) 7 ≤ 1 ∧
      (inFlight (afterText BotState.init ⟨"hello", 7⟩ 0 0) 7 = 1 ↔
        isBusy (afterText BotState.init ⟨"hello", 7⟩ 0 0).sessions 7 = true)) ∧
    inFlight (afterText BotState.init ⟨"hello", 7⟩ 0 0) 7 = 1 ∧
    inFlight (afterText BotState.init ⟨"hello", 7⟩ 0 0) 8 = 0 :=
  ⟨single_flight _ reachable_after_hello 7, by decide, by decide⟩

/-! ## Replies and cooldown over a whole request (claims C8 and C9) -/

/-- Claim C8 as stated fails: chat `7` sends `hello`, is allowed, and the
pipeline fails; the handler has then sent two text messages to chat `7`, the
acknowledgement and the failure reply, not one. -/
theorem failed_request_sends_two_texts :
    (run BotState.init
        [.text ⟨"hello", 7⟩ 0 0, .settled 7 (.error "network") 5000]).map (fun r => r.2)
      = some [.sendMessage 7 .generating, .sendMessage 7 .failure] ∧
    textReplies 7 [.sendMessage 7 .generating, .sendMessage 7 .failure] = 2 ∧
    ¬ ((run BotState.init
        [.text ⟨"hello", 7⟩ 0 0, .settled 7 (.error "network") 5000]).map
          (fun r => textReplies 7 r.2) = some 1) := by
  refine ⟨by decide, by decide, by decide⟩

/-- Claim C8, amended: a text other than `/start` is either rejected or allowed.
Rejected, it gets exactly one text reply and no voice. Allowed, with a pipeline
that fails after any other events of the loop, it gets exactly two texts, the
acknowledgement then the failure reply, and no voice; its session ends with
`isProcessing == false` and the `timeoutTo` it had when the message arrived. -/
theorem reject_or_fail_replies (s s1 : BotState) (msg : Msg) (now now' : Int)
    (acts1 : List Action) (htext : isStart msg.text = false)
    (hstep : step s (.text msg now now') = some (s1, acts1)) :
    ((onText s.sessions msg now now').2.2 = .done ∨
      (onText s.sessions msg now now').2.2 = .generating msg.chat msg.text) ∧
    ((onText s.sessions msg now now').2.2 = .done →
      s1.pending = s.pending ∧
      (acts1 = [.sendMessage msg.chat .busy] ∨
        ∃ seconds, acts1 = [.sendMessage msg.chat (.cooldown seconds)]) ∧
      textReplies msg.chat acts1 = 1 ∧ voiceMessages acts1 = 0) ∧
    ((onText s.sessions msg now now').2.2 = .generating msg.chat msg.text →
      ∀ (es : List Event) (s2 : BotState) (mid : List Action) (e : Error) (t : Int),
        (∀ ev ∈ es, settles msg.chat ev = false) →
        run s1 es = some (s2, mid) →
        ∃ (s3 : BotState) (acts2 : List Action),
          step s2 (.settled msg.chat (.error e) t) = some (s3, acts2) ∧
          acts1 ++ acts2 = [.sendMessage msg.chat .generating, .sendMessage msg.chat .failure] ∧
          textReplies msg.chat (acts1 ++ acts2) = 2 ∧
          voiceMessages (acts1 ++ acts2) = 0 ∧
          s3.sessions.get msg.chat
            = some { isProcessing := some false,
                     timeoutTo := (useSession s.sessions msg.chat).2.timeoutTo }) := by
  refine ⟨?_, ?_, ?_⟩
  · simp only [onText, htext, Bool.false_eq_true, if_false]
    split_ifs <;> simp
  · intro hdone
    rw [step_text] at hstep
    simp only [Option.some.injEq, Prod.mk.injEq] at hstep
    obtain ⟨rfl, rfl⟩ := hstep
    refine ⟨by simp [afterText, hdone], ?_⟩
    simp only [onText, htext] at hdone ⊢
    split_ifs at hdone ⊢ <;> simp_all [textReplies, voiceMessages]
  · intro hallow es s2 mid e t hes hrun
    obtain ⟨hacts, hmem, hget⟩ :=
      allowed_until_settled s s1 s2 msg now now' acts1 mid es hallow hstep hes hrun
    refine ⟨_, _, by simp only [step, hmem, if_true, onGenerated]; rfl, ?_, ?_, ?_, ?_⟩
    · simp [hacts]
    · simp [hacts, textReplies]
    · simp [hacts, voiceMessages]
    · simp [setSession_get_self, hget, spreadGet, spread]

/-- Claim C8, amended, on two requests of chat `7`: `hello` is allowed and its
pipeline fails at clock `5000` (two texts, session idle again with cooldown
`0`); `again`, sent while `hello` is in flight, is rejected with one text. -/
theorem reject_or_fail_replies_witness :
    (∃ (s3 : BotState) (acts2 : List Action),
      step (afterText BotState.init ⟨"hello", 7⟩ 0 0) (.settled 7 (.error "network") 5000)
        = some (s3, acts2) ∧
      [Action.sendMessage 7 .generating] ++ acts2
        = [.sendMessage 7 .generating, .sendMessage 7 .failure] ∧
      textReplies 7 ([Action.sendMessage 7 .generating] ++ acts2) = 2 ∧
      voiceMessages ([Action.sendMessage 7 .generating] ++ acts2) = 0 ∧
      s3.sessions.get 7 = some { isProcessing := some false, timeoutTo := some 0 }) ∧
    (textReplies 7 [Action.sendMessage 7 .busy] = 1 ∧
      voiceMessages [Action.sendMessage 7 .busy] = 0) :=
  ⟨(reject_or_fail_replies BotState.init (afterText BotState.init ⟨"hello", 7⟩ 0 0)
      ⟨"hello", 7⟩ 0 0 [.sendMessage 7 .generating] (by decide) (step_text _ _ _ _)).2.2
      (by decide) [] (afterText BotState.init ⟨"hello", 7⟩ 0 0) [] "network" 5000
      (by simp) rfl,
   ((reject_or_fail_replies (afterText BotState.init ⟨"hello", 7⟩ 0 0)
      (afterText (afterText BotState.init ⟨"hello", 7⟩ 0 0) ⟨"again", 7⟩ 100 100)
      ⟨"again", 7⟩ 100 100 [.sendMessage 7 .busy] (by decide) (step_text _ _ _ _)).2.1
      (by decide)).2.2⟩

/-- Claim C9 as stated fails: chat `7` sends `hello` at clock `0`, the pipeline
succeeds at clock `5000`, and the stored `timeoutTo` is `65000`, not `60000`. -/
theorem cooldown_not_armed_at_receipt :
    ¬ ∀ (now t : Int) (voice : Buffer), now ≤ t →
      (run BotState.init
          [.text ⟨"hello", 7⟩ now now, .settled 7 (.ok voice) t]).map
            (fun r => r.1.sessions.get 7)
        = some (some { isProcessing := some false, timeoutTo := some (now + 60000) }) := by
  intro h
  have h1 := h 0 5000 [1] (by decide)
  have h2 : (run BotState.init
      [.text ⟨"hello", 7⟩ 0 0, .settled 7 (.ok [1]) 5000]).map (fun r => r.1.sessions.get 7)
      = some (some { isProcessing := some false, timeoutTo := some 65000 }) := by decide
  rw [h2] at h1
  revert h1
  decide

/-- Claim C9, amended: when an allowed message, received at clock `now`, has its
pipeline succeed after any other events of the loop, the success path sends the
voice and stores `timeoutTo == t + 60000`, where `t` is the clock reading on
line 77 at completion; the receipt time `now` does not enter. -/
theorem cooldown_armed_at_completion (s s1 s2 : BotState) (msg : Msg) (now now' t : Int)
    (acts1 mid : List Action) (es : List Event) (voice : Buffer)
    (hallow : (onText s.sessions msg now now').2.2 = .generating msg.chat msg.text)
    (hstep : step s (.text msg now now') = some (s1, acts1))
    (hes : ∀ ev ∈ es, settles msg.chat ev = false)
    (hrun : run s1 es = some (s2, mid)) :
    ∃ s3 : BotState,
      step s2 (.settled msg.chat (.ok voice) t) = some (s3, [.sendVoice msg.chat voice]) ∧
      s3.sessions.get msg.chat
        = some { isProcessing := some false, timeoutTo := some (t + 60000) } := by
  obtain ⟨-, hmem, hget⟩ :=
    allowed_until_settled s s1 s2 msg now now' acts1 mid es hallow hstep hes hrun
  refine ⟨_, by simp only [step, hmem, if_true, onGenerated]; rfl, ?_⟩
  simp [setSession_get_self, hget, spreadGet, spread]

/-- Claim C9, amended, for `hello` received at clock `0` and completed at `5000`,
with a message of chat `8` handled in between. -/
theorem cooldown_armed_at_completion_witness :
    ∃ s3 : BotState,
      step (afterText (afterText BotState.init ⟨"hello", 7⟩ 0 0) ⟨"hi", 8⟩ 10 10)
          (.settled 7 (.ok [1]) 5000) = some (s3, [.sendVoice 7 [1]]) ∧
      s3.sessions.get 7 = some { isProcessing := some false, timeoutTo := some (5000 + 60000) } :=
  cooldown_armed_at_completion BotState.init (afterText BotState.init ⟨"hello", 7⟩ 0 0)
    (afterText (afterText BotState.init ⟨"hello", 7⟩ 0 0) ⟨"hi", 8⟩ 10 10)
    ⟨"hello", 7⟩ 0 0 5000 [.sendMessage 7 .generating] [.sendMessage 8 .generating]
    [.text ⟨"hi", 8⟩ 10 10] [1] (by decide) (step_text _ _ _ _) (by decide)
    (by simp only [run, step_text]; rfl)

end TgBot
